import Mathlib

/-!
Shallow embedding of the two C headers of the repository:
  tensorflow/lite/core/c/types.h          (TfLiteType, TfLiteQuantizationParams,
                                           TfLiteDimensionType)
  tensorflow/compiler/mlir/lite/core/c/tflite_types.h
                                          (MlirContext, MlirType)
Each Lean definition mirrors the corresponding C declaration.
-/

namespace TfLiteC

/-- Embedding of the C enum `TfLiteType` from types.h: the 17 named tags of a
tensor element type. -/
inductive TfLiteType where
  | kTfLiteNoType
  | kTfLiteFloat32
  | kTfLiteInt32
  | kTfLiteUInt8
  | kTfLiteInt64
  | kTfLiteString
  | kTfLiteBool
  | kTfLiteInt16
  | kTfLiteComplex64
  | kTfLiteInt8
  | kTfLiteFloat16
  | kTfLiteFloat64
  | kTfLiteUInt64
  | kTfLiteResource
  | kTfLiteVariant
  | kTfLiteUInt32
  | kTfLiteUInt16
deriving DecidableEq, Fintype, Repr

/-- The integer value the source assigns to each `TfLiteType` enumerator. -/
def TfLiteType.toCode : TfLiteType → Nat
  | .kTfLiteNoType => 0
  | .kTfLiteFloat32 => 1
  | .kTfLiteInt32 => 2
  | .kTfLiteUInt8 => 3
  | .kTfLiteInt64 => 4
  | .kTfLiteString => 5
  | .kTfLiteBool => 6
  | .kTfLiteInt16 => 7
  | .kTfLiteComplex64 => 8
  | .kTfLiteInt8 => 9
  | .kTfLiteFloat16 => 10
  | .kTfLiteFloat64 => 11
  | .kTfLiteUInt64 => 12
  | .kTfLiteResource => 13
  | .kTfLiteVariant => 14
  | .kTfLiteUInt32 => 15
  | .kTfLiteUInt16 => 16

/-- All 17 members of `TfLiteType`, in source order. -/
def allTfLiteTypes : List TfLiteType :=
  [.kTfLiteNoType, .kTfLiteFloat32, .kTfLiteInt32, .kTfLiteUInt8, .kTfLiteInt64,
   .kTfLiteString, .kTfLiteBool, .kTfLiteInt16, .kTfLiteComplex64, .kTfLiteInt8,
   .kTfLiteFloat16, .kTfLiteFloat64, .kTfLiteUInt64, .kTfLiteResource,
   .kTfLiteVariant, .kTfLiteUInt32, .kTfLiteUInt16]

/-- The 16 scalar element kinds: every member of `TfLiteType` except the
distinguished `kTfLiteNoType`. -/
def scalarTfLiteTypes : List TfLiteType :=
  [.kTfLiteFloat32, .kTfLiteInt32, .kTfLiteUInt8, .kTfLiteInt64,
   .kTfLiteString, .kTfLiteBool, .kTfLiteInt16, .kTfLiteComplex64, .kTfLiteInt8,
   .kTfLiteFloat16, .kTfLiteFloat64, .kTfLiteUInt64, .kTfLiteResource,
   .kTfLiteVariant, .kTfLiteUInt32, .kTfLiteUInt16]

/-- Embedding of the C enum `TfLiteDimensionType` from types.h: the 3 tags for
how one tensor dimension is encoded. -/
inductive TfLiteDimensionType where
  | kTfLiteDimDense
  | kTfLiteDimSparseCSR
  | kTfLiteDimSparseCOO
deriving DecidableEq, Fintype, Repr

/-- The integer value the source assigns to each `TfLiteDimensionType`
enumerator. -/
def TfLiteDimensionType.toCode : TfLiteDimensionType → Nat
  | .kTfLiteDimDense => 0
  | .kTfLiteDimSparseCSR => 1
  | .kTfLiteDimSparseCOO => 2

/-- All 3 members of `TfLiteDimensionType`, in source order. -/
def allTfLiteDimensionTypes : List TfLiteDimensionType :=
  [.kTfLiteDimDense, .kTfLiteDimSparseCSR, .kTfLiteDimSparseCOO]

/-- Embedding of the C type `float` (IEEE-754 binary32) by its 32-bit pattern. -/
structure Float32 where
  bits : Fin (2 ^ 32)
deriving DecidableEq, Repr

/-- Sign bit of a binary32 pattern (bit 31). -/
def Float32.sign (f : Float32) : Nat := f.bits.val / 2 ^ 31

/-- Biased exponent of a binary32 pattern (bits 23..30). -/
def Float32.exponent (f : Float32) : Nat := f.bits.val / 2 ^ 23 % 2 ^ 8

/-- Mantissa of a binary32 pattern (bits 0..22). -/
def Float32.mantissa (f : Float32) : Nat := f.bits.val % 2 ^ 23

/-- Rational value denoted by a binary32 pattern: normal numbers are
(-1)^s * (1 + m / 2^23) * 2^(e - 127), subnormals are (-1)^s * m * 2^(-149).
The non-finite patterns (biased exponent 255: infinities and NaNs) denote no
rational value and are mapped to 0 here; no claim touches them. -/
def Float32.toRat (f : Float32) : ℚ :=
  let mag : ℚ :=
    if f.exponent = 0 then (f.mantissa : ℚ) / 2 ^ 149
    else if f.exponent = 255 then 0
    else ((2 ^ 23 + (f.mantissa : ℚ)) * 2 ^ f.exponent) / 2 ^ 150
  if f.sign = 0 then mag else -mag

/-- Embedding of the C type `int32_t` by its 32-bit pattern, read as
two's complement by `toInt`. -/
structure int32_t where
  repr : Fin (2 ^ 32)
deriving DecidableEq

/-- Two's-complement value of an `int32_t` pattern. -/
def int32_t.toInt (x : int32_t) : Int :=
  if x.repr.val < 2 ^ 31 then (x.repr.val : Int) else (x.repr.val : Int) - 2 ^ 32

/-- Embedding of the C struct `TfLiteQuantizationParams` from types.h:
field `scale` of type `float`, then field `zero_point` of type `int32_t`. -/
structure TfLiteQuantizationParams where
  scale : Float32
  zero_point : int32_t
deriving DecidableEq

/-- The value of a `TfLiteQuantizationParams` as the ordered pair of its
fields: first `scale`, then `zero_point`. -/
def TfLiteQuantizationParams.toPair (q : TfLiteQuantizationParams) :
    Float32 × int32_t := (q.scale, q.zero_point)

/-- Builds a `TfLiteQuantizationParams` from the ordered pair
(scale, zero_point). -/
def TfLiteQuantizationParams.ofPair (p : Float32 × int32_t) :
    TfLiteQuantizationParams := { scale := p.1, zero_point := p.2 }

/-- Copy construction of a `TfLiteQuantizationParams`: C copies a trivially
copyable struct member by member. -/
def TfLiteQuantizationParams.copy (q : TfLiteQuantizationParams) :
    TfLiteQuantizationParams := { scale := q.scale, zero_point := q.zero_point }

/-- Assignment `dst = src` on `TfLiteQuantizationParams`: the destination is
replaced by a member-wise copy of the source. -/
def TfLiteQuantizationParams.assign (dst src : TfLiteQuantizationParams) :
    TfLiteQuantizationParams :=
  { scale := src.scale, zero_point := src.zero_point }

/-- Writing the `scale` member of a `TfLiteQuantizationParams`. -/
def TfLiteQuantizationParams.setScale (q : TfLiteQuantizationParams)
    (s : Float32) : TfLiteQuantizationParams := { q with scale := s }

/-- Writing the `zero_point` member of a `TfLiteQuantizationParams`. -/
def TfLiteQuantizationParams.setZeroPoint (q : TfLiteQuantizationParams)
    (z : int32_t) : TfLiteQuantizationParams := { q with zero_point := z }

/-- The binary32 pattern of 0.5: sign 0, biased exponent 126, mantissa 0
(0x3F000000). -/
def halfFloat32 : Float32 := { bits := ⟨0x3F000000, by norm_num⟩ }

/-- The binary32 pattern of -0.5: sign 1, biased exponent 126, mantissa 0
(0xBF000000). -/
def negHalfFloat32 : Float32 := { bits := ⟨0xBF000000, by norm_num⟩ }

/-- The `int32_t` pattern of 128. -/
def int32_128 : int32_t := { repr := ⟨128, by norm_num⟩ }

/-- The `TfLiteQuantizationParams` value constructed with scale 0.5 and
zero_point 128. -/
def qHalf128 : TfLiteQuantizationParams :=
  { scale := halfFloat32, zero_point := int32_128 }

/-- Embedding of the C type `void *` as a 64-bit address. -/
def Ptr : Type := Fin (2 ^ 64)

instance : DecidableEq Ptr := by unfold Ptr; infer_instance

/-- The null pointer: address 0. -/
def Ptr.null : Ptr := ⟨0, by norm_num⟩

/-- Embedding of the C struct `MlirContext` from tflite_types.h: a single
member `ptr` of type `void *`. -/
structure MlirContext where
  ptr : Ptr
deriving DecidableEq

/-- Embedding of the C struct `MlirType` from tflite_types.h: a single
member `ptr` of type `void *`. -/
structure MlirType where
  ptr : Ptr
deriving DecidableEq

/-- C1: the `TfLiteType` enumeration is exactly the 17 named tags listed in
the source, each with the integer value assigned there (kTfLiteNoType = 0
through kTfLiteUInt16 = 16), and no others. -/
theorem tfLiteType_tags_exact :
    TfLiteType.kTfLiteNoType.toCode = 0 ∧
    TfLiteType.kTfLiteFloat32.toCode = 1 ∧
    TfLiteType.kTfLiteInt32.toCode = 2 ∧
    TfLiteType.kTfLiteUInt8.toCode = 3 ∧
    TfLiteType.kTfLiteInt64.toCode = 4 ∧
    TfLiteType.kTfLiteString.toCode = 5 ∧
    TfLiteType.kTfLiteBool.toCode = 6 ∧
    TfLiteType.kTfLiteInt16.toCode = 7 ∧
    TfLiteType.kTfLiteComplex64.toCode = 8 ∧
    TfLiteType.kTfLiteInt8.toCode = 9 ∧
    TfLiteType.kTfLiteFloat16.toCode = 10 ∧
    TfLiteType.kTfLiteFloat64.toCode = 11 ∧
    TfLiteType.kTfLiteUInt64.toCode = 12 ∧
    TfLiteType.kTfLiteResource.toCode = 13 ∧
    TfLiteType.kTfLiteVariant.toCode = 14 ∧
    TfLiteType.kTfLiteUInt32.toCode = 15 ∧
    TfLiteType.kTfLiteUInt16.toCode = 16 ∧
    (∀ t : TfLiteType, t ∈ allTfLiteTypes) ∧
    allTfLiteTypes.length = 17 ∧ allTfLiteTypes.Nodup := by decide

/-- C2: the `TfLiteDimensionType` enumeration has exactly 3 members, with
kTfLiteDimDense = 0, kTfLiteDimSparseCSR = 1, kTfLiteDimSparseCOO = 2. -/
theorem tfLiteDimensionType_tags_exact :
    TfLiteDimensionType.kTfLiteDimDense.toCode = 0 ∧
    TfLiteDimensionType.kTfLiteDimSparseCSR.toCode = 1 ∧
    TfLiteDimensionType.kTfLiteDimSparseCOO.toCode = 2 ∧
    (∀ d : TfLiteDimensionType, d ∈ allTfLiteDimensionTypes) ∧
    allTfLiteDimensionTypes.length = 3 ∧ allTfLiteDimensionTypes.Nodup := by
  decide

/-- C3: `TfLiteQuantizationParams` is a plain record of exactly two fields in
order — `scale` of 32-bit float type, then `zero_point` of `int32_t` — i.e.
its values are in bijection with ordered pairs (scale, zero_point), the first
component being `scale` and the second `zero_point`. -/
theorem quantizationParams_is_pair_scale_then_zero_point :
    (∀ q : TfLiteQuantizationParams,
      TfLiteQuantizationParams.ofPair q.toPair = q) ∧
    (∀ p : Float32 × int32_t,
      (TfLiteQuantizationParams.ofPair p).toPair = p) ∧
    (∀ q : TfLiteQuantizationParams,
      q.toPair.1 = q.scale ∧ q.toPair.2 = q.zero_point) := by
  refine ⟨fun q => rfl, fun p => rfl, fun q => ⟨rfl, rfl⟩⟩

/-- C4: copy construction and assignment of a `TfLiteQuantizationParams`
preserve both fields, for every value and in particular for the one
constructed with scale = 0.5 and zero_point = 128. -/
theorem quantizationParams_copy_assign_roundtrip :
    (∀ q : TfLiteQuantizationParams,
      q.copy.scale = q.scale ∧ q.copy.zero_point = q.zero_point) ∧
    (∀ d s : TfLiteQuantizationParams,
      (TfLiteQuantizationParams.assign d s).scale = s.scale ∧
      (TfLiteQuantizationParams.assign d s).zero_point = s.zero_point) ∧
    qHalf128.scale.toRat = 1 / 2 ∧ qHalf128.zero_point.toInt = 128 ∧
    qHalf128.copy.scale = qHalf128.scale ∧
    qHalf128.copy.zero_point = qHalf128.zero_point ∧
    (∀ d : TfLiteQuantizationParams,
      (TfLiteQuantizationParams.assign d qHalf128).scale = qHalf128.scale ∧
      (TfLiteQuantizationParams.assign d qHalf128).zero_point =
        qHalf128.zero_point) := by
  refine ⟨fun q => ⟨rfl, rfl⟩, fun d s => ⟨rfl, rfl⟩, ?_, by decide,
    rfl, rfl, fun d => ⟨rfl, rfl⟩⟩
  simp only [qHalf128, halfFloat32, Float32.toRat, Float32.sign,
    Float32.exponent, Float32.mantissa]
  norm_num

/-- C5: `MlirContext` and `MlirType` each hold exactly one pointer field
named `ptr` (their values are in bijection with `Ptr`), and the null handle
(pointer 0) is a well-formed value of each type. -/
theorem mlir_wrappers_single_pointer_and_null :
    (∀ c : MlirContext, MlirContext.mk c.ptr = c) ∧
    (∀ p : Ptr, (MlirContext.mk p).ptr = p) ∧
    (∀ t : MlirType, MlirType.mk t.ptr = t) ∧
    (∀ p : Ptr, (MlirType.mk p).ptr = p) ∧
    (MlirContext.mk Ptr.null).ptr = Ptr.null ∧
    (MlirType.mk Ptr.null).ptr = Ptr.null ∧ Ptr.null.val = 0 := by
  exact ⟨fun c => rfl, fun p => rfl, fun t => rfl, fun p => rfl, rfl, rfl, rfl⟩

/-- C6: the type `TfLiteQuantizationParams` does not enforce non-negativity
of `scale`: there is a well-typed value whose `scale` denotes a negative
number. -/
theorem quantizationParams_scale_can_be_negative :
    ∃ q : TfLiteQuantizationParams, q.scale.toRat < 0 := by
  refine ⟨{ scale := negHalfFloat32, zero_point := int32_128 }, ?_⟩
  simp only [negHalfFloat32, Float32.toRat, Float32.sign, Float32.exponent,
    Float32.mantissa]
  norm_num

/-- C7: the excerpt defines no operation that can fail: the only operations
on the declared entities (aggregate construction, copy, assignment, member
access, and reading an enumerator value) are total — every combination of
field values is accepted and yields a well-formed result, with no error
outcome or failure branch. -/
theorem no_failing_operations :
    (∀ (s : Float32) (z : int32_t), ∃ q : TfLiteQuantizationParams,
      q.scale = s ∧ q.zero_point = z) ∧
    (∀ q : TfLiteQuantizationParams, q.copy = q) ∧
    (∀ d s : TfLiteQuantizationParams, TfLiteQuantizationParams.assign d s = s) ∧
    (∀ p : Ptr, ∃ c : MlirContext, c.ptr = p) ∧
    (∀ p : Ptr, ∃ t : MlirType, t.ptr = p) ∧
    (∀ t : TfLiteType, ∃ n : Nat, t.toCode = n) ∧
    (∀ d : TfLiteDimensionType, ∃ n : Nat, d.toCode = n) := by
  exact ⟨fun s z => ⟨⟨s, z⟩, rfl, rfl⟩, fun q => rfl, fun d s => rfl,
    fun p => ⟨⟨p⟩, rfl⟩, fun p => ⟨⟨p⟩, rfl⟩,
    fun t => ⟨t.toCode, rfl⟩, fun d => ⟨d.toCode, rfl⟩⟩

/-- C8: the tag-to-integer maps of both enumerations are injective: two
members of `TfLiteType` (resp. `TfLiteDimensionType`) have the same integer
value exactly when they are the same member. -/
theorem enum_codes_injective :
    (∀ a b : TfLiteType, a.toCode = b.toCode ↔ a = b) ∧
    (∀ a b : TfLiteDimensionType, a.toCode = b.toCode ↔ a = b) := by decide

/-- C9: the value 0 of `TfLiteType` is `kTfLiteNoType` and only it, and
`kTfLiteNoType` is not one of the 16 scalar element kinds, so a
zero-initialized tag denotes the absence of an element type. -/
theorem noType_is_zero_and_not_scalar :
    TfLiteType.kTfLiteNoType.toCode = 0 ∧
    (∀ t : TfLiteType, t.toCode = 0 ↔ t = TfLiteType.kTfLiteNoType) ∧
    TfLiteType.kTfLiteNoType ∉ scalarTfLiteTypes ∧
    scalarTfLiteTypes.length = 16 ∧
    (∀ t : TfLiteType,
      t ∈ scalarTfLiteTypes ↔ t ≠ TfLiteType.kTfLiteNoType) := by decide

/-- C10: updating one field of a `TfLiteQuantizationParams` leaves the other
field unchanged: writing `scale` preserves `zero_point`, and writing
`zero_point` preserves `scale`. -/
theorem quantizationParams_field_update_frame :
    (∀ (q : TfLiteQuantizationParams) (s : Float32),
      (q.setScale s).zero_point = q.zero_point ∧ (q.setScale s).scale = s) ∧
    (∀ (q : TfLiteQuantizationParams) (z : int32_t),
      (q.setZeroPoint z).scale = q.scale ∧ (q.setZeroPoint z).zero_point = z) := by
  exact ⟨fun q s => ⟨rfl, rfl⟩, fun q z => ⟨rfl, rfl⟩⟩

end TfLiteC
